import Mathlib

/-!
# Orderly: the Windows runner entry point

A shallow embedding of `wWinMain` from `windows/runner/main.cpp`.

The function is a straight line of calls into the operating system and the UI
framework, one early return and one loop.  The embedding threads an explicit
trace of the calls made (in program order) through the body, and reads every
value that the outside world returns from an environment record `Env`.

* `BOOL`, `int`, `LONG` and `HRESULT` results are `Int`; a `BOOL` is true when
  it is non-zero, as in C++.
* `screenHeight-50` is `int` arithmetic; it is modelled with 32-bit
  two's-complement wrap-around (`wrapInt`).
* The bitwise operators on `LONG` are the two's-complement operators on `Int`.
* `GetMessage` blocks on the message queue.  The environment supplies the
  finite list of results it delivers; when the list is used up without a zero
  result the run stays blocked inside `GetMessage` (`Outcome.blocked`).
* Implicit destructor calls at scope exit are not part of the trace.
-/

set_option linter.unusedVariables false

namespace Orderly

/-! ## Platform constants and types -/

/-- Value of `EXIT_SUCCESS` (`stdlib.h`). -/
def EXIT_SUCCESS : Int := 0

/-- Value of `EXIT_FAILURE` (`stdlib.h`). -/
def EXIT_FAILURE : Int := 1

/-- Value of `ATTACH_PARENT_PROCESS`, which is `(DWORD)-1` (`wincon.h`). -/
def ATTACH_PARENT_PROCESS : Nat := 4294967295

/-- Value of `COINIT_APARTMENTTHREADED` (`objbase.h`). -/
def COINIT_APARTMENTTHREADED : Nat := 2

/-- Value of `SM_CXSCREEN` (`winuser.h`). -/
def SM_CXSCREEN : Int := 0

/-- Value of `SM_CYSCREEN` (`winuser.h`). -/
def SM_CYSCREEN : Int := 1

/-- Value of `GWL_STYLE` (`winuser.h`). -/
def GWL_STYLE : Int := -16

/-- Value of `WS_SIZEBOX`, the `LONG` constant `0x00040000L` (`winuser.h`). -/
def WS_SIZEBOX : Int := 0x00040000

/-- Value of `WS_MAXIMIZEBOX`, the `LONG` constant `0x00010000L` (`winuser.h`). -/
def WS_MAXIMIZEBOX : Int := 0x00010000

/-- Smallest value of a 32-bit `int`. -/
def INT_MIN : Int := -2147483648

/-- Largest value of a 32-bit `int`. -/
def INT_MAX : Int := 2147483647

/-- Reduction of a mathematical integer to the 32-bit two's-complement `int`
that represents it. -/
def wrapInt (x : Int) : Int := (x + 2147483648) % 4294967296 - 2147483648

/-- Window handles. -/
abbrev HWND := Nat

/-- Module handles. -/
abbrev HINSTANCE := Nat

/-- Contents of a `MSG` buffer after a call of `GetMessage`. -/
structure MSG where
  message : Nat
  wParam : Nat
  lParam : Int
  deriving DecidableEq

/-- Modelled from the spec: `Win32Window::Point` is declared in a header that is
not part of the sources at hand; the model records the two constructor
arguments that `wWinMain` evaluates. -/
structure Point where
  x : Int
  y : Int
  deriving DecidableEq

/-- Modelled from the spec: `Win32Window::Size` is declared in a header that is
not part of the sources at hand; the model records the two constructor
arguments that `wWinMain` evaluates, as the `int` values of the argument
expressions. -/
structure Size where
  width : Int
  height : Int
  deriving DecidableEq

/-- Modelled from the spec: `flutter::DartProject` belongs to the UI framework;
the model records the path given to the constructor and the entrypoint
arguments last set on it. -/
structure DartProject where
  path : String
  dart_entrypoint_arguments : List String
  deriving DecidableEq

/-! ## Calls and runs -/

/-- One call made by `wWinMain`, with the arguments it was given. `GetMessage`
also records its result and the contents it left in the `MSG` buffer. -/
inductive Event where
  | AttachConsole (dwProcessId : Nat)
  | IsDebuggerPresent
  | CreateAndAttachConsole
  | CoInitializeEx (pvReserved : Option Nat) (dwCoInit : Nat)
  | DartProject (path : String)
  | GetCommandLineArguments
  | set_dart_entrypoint_arguments (arguments : List String)
  | GetSystemMetrics (nIndex : Int)
  | FlutterWindow (project : Orderly.DartProject)
  | Create (title : String) (origin : Point) (size : Size)
  | GetHandle
  | GetWindowLong (hwnd : HWND) (nIndex : Int)
  | SetWindowLong (hwnd : HWND) (nIndex : Int) (dwNewLong : Int)
  | SetQuitOnClose (quit_on_close : Bool)
  | GetMessage (result : Int) (msg : MSG)
  | TranslateMessage (msg : MSG)
  | DispatchMessage (msg : MSG)
  | CoUninitialize
  deriving DecidableEq

/-- What the outside world answers to the calls of one run. -/
structure Env where
  /-- `BOOL` result of `AttachConsole(ATTACH_PARENT_PROCESS)`. -/
  AttachConsole : Int
  /-- `BOOL` result of `IsDebuggerPresent()`. -/
  IsDebuggerPresent : Int
  /-- `HRESULT` of `CoInitializeEx`. -/
  CoInitializeEx : Int
  /-- Vector returned by `GetCommandLineArguments()`. -/
  GetCommandLineArguments : List String
  /-- Result of `GetSystemMetrics` for each index. -/
  GetSystemMetrics : Int → Int
  /-- Result of `window.Create`. -/
  Create : Bool
  /-- Result of `window.GetHandle()`. -/
  GetHandle : HWND
  /-- Result of `GetWindowLong(hwnd, GWL_STYLE)`. -/
  GetWindowLong : Int
  /-- Result of `SetWindowLong`. -/
  SetWindowLong : Int
  /-- Successive results of `GetMessage`, each with the buffer contents. -/
  GetMessage : List (Int × MSG)

/-- How a run ends: `wWinMain` returns a code, or it stays blocked inside
`GetMessage`. -/
inductive Outcome where
  | returned (code : Int)
  | blocked
  deriving DecidableEq

/-- The loop `while (GetMessage(&msg, nullptr, 0, 0)) { TranslateMessage(&msg);
DispatchMessage(&msg); }` run against the results the environment delivers,
extending the trace `t`. The flag tells whether the loop was left. -/
def messageLoop : List (Int × MSG) → List Event → Bool × List Event
  | [], t => (false, t)
  | (r, msg) :: rest, t =>
    let t := t ++ [Event.GetMessage r msg]
    if r ≠ 0 then
      let t := t ++ [Event.TranslateMessage msg]
      let t := t ++ [Event.DispatchMessage msg]
      messageLoop rest t
    else
      (true, t)

/-- The value `GetWindowLong(hwnd, GWL_STYLE) & ~WS_SIZEBOX & ~WS_MAXIMIZEBOX`
for a style `s`. -/
def styleWithoutResize (s : Int) : Int :=
  Int.land (Int.land s (Int.lnot WS_SIZEBOX)) (Int.lnot WS_MAXIMIZEBOX)

/-- The entry point `wWinMain`, as the outcome of the run and the trace of the
calls made. -/
def wWinMain (inst prev : HINSTANCE) (command_line : String) (show_command : Int)
    (env : Env) : Outcome × List Event :=
  -- if (!AttachConsole(ATTACH_PARENT_PROCESS) && IsDebuggerPresent())
  let t : List Event := [Event.AttachConsole ATTACH_PARENT_PROCESS]
  let t :=
    if env.AttachConsole = 0 then
      let t := t ++ [Event.IsDebuggerPresent]
      if env.IsDebuggerPresent ≠ 0 then
        t ++ [Event.CreateAndAttachConsole]
      else t
    else t
  -- CoInitializeEx(nullptr, COINIT_APARTMENTTHREADED), result discarded
  let t := t ++ [Event.CoInitializeEx none COINIT_APARTMENTTHREADED]
  -- flutter::DartProject project(L"data")
  let project : DartProject := ⟨"data", []⟩
  let t := t ++ [Event.DartProject "data"]
  let command_line_arguments := env.GetCommandLineArguments
  let t := t ++ [Event.GetCommandLineArguments]
  let project := { project with dart_entrypoint_arguments := command_line_arguments }
  let t := t ++ [Event.set_dart_entrypoint_arguments command_line_arguments]
  let screenWidth := env.GetSystemMetrics SM_CXSCREEN
  let t := t ++ [Event.GetSystemMetrics SM_CXSCREEN]
  let screenHeight := env.GetSystemMetrics SM_CYSCREEN
  let t := t ++ [Event.GetSystemMetrics SM_CYSCREEN]
  -- FlutterWindow window(project)
  let t := t ++ [Event.FlutterWindow project]
  let origin : Point := ⟨0, 0⟩
  let size : Size := ⟨screenWidth, wrapInt (screenHeight - 50)⟩
  let t := t ++ [Event.Create "orderly" origin size]
  if ¬ env.Create then
    (Outcome.returned EXIT_FAILURE, t)
  else
    let hwnd := env.GetHandle
    let t := t ++ [Event.GetHandle]
    let style := env.GetWindowLong
    let t := t ++ [Event.GetWindowLong hwnd GWL_STYLE]
    let t := t ++ [Event.SetWindowLong hwnd GWL_STYLE (styleWithoutResize style)]
    let t := t ++ [Event.SetQuitOnClose true]
    let (left, t) := messageLoop env.GetMessage t
    if left then
      (Outcome.returned EXIT_SUCCESS, t ++ [Event.CoUninitialize])
    else
      (Outcome.blocked, t)

/-- An environment used to evaluate the model: a 1920 by 1080 screen, no parent
console, a debugger present, window creation succeeding, two messages (the
second retrieved with the error result) and then `WM_QUIT`. -/
def sampleEnv : Env where
  AttachConsole := 0
  IsDebuggerPresent := 1
  CoInitializeEx := 0
  GetCommandLineArguments := ["--verbose", "a b"]
  GetSystemMetrics := fun i => if i = SM_CXSCREEN then 1920 else if i = SM_CYSCREEN then 1080 else 0
  Create := true
  GetHandle := 7
  GetWindowLong := 0x14CF0000
  SetWindowLong := 0x14CF0000
  GetMessage := [(1, ⟨15, 0, 0⟩), (-1, ⟨15, 0, 0⟩), (0, ⟨18, 0, 0⟩), (1, ⟨15, 0, 0⟩)]

/-! ## Closed forms of the trace -/

/-- The calls made for one message retrieved with a non-zero result. -/
def handled (p : Int × MSG) : List Event :=
  [Event.GetMessage p.1 p.2, Event.TranslateMessage p.2, Event.DispatchMessage p.2]

/-- The calls the message loop adds to the trace. -/
def loopCalls : List (Int × MSG) → List Event
  | [] => []
  | (r, msg) :: rest =>
    if r ≠ 0 then handled (r, msg) ++ loopCalls rest else [Event.GetMessage r msg]

/-- Whether the message loop is left: some delivered result is zero. -/
def loopLeft : List (Int × MSG) → Bool
  | [] => false
  | (r, _) :: rest => if r ≠ 0 then loopLeft rest else true

/-- The calls of the console step. -/
def consoleCalls (env : Env) : List Event :=
  if env.AttachConsole = 0 then
    if env.IsDebuggerPresent ≠ 0 then
      [Event.AttachConsole ATTACH_PARENT_PROCESS, Event.IsDebuggerPresent,
        Event.CreateAndAttachConsole]
    else [Event.AttachConsole ATTACH_PARENT_PROCESS, Event.IsDebuggerPresent]
  else [Event.AttachConsole ATTACH_PARENT_PROCESS]

/-- The calls from `CoInitializeEx` up to and including `window.Create`. -/
def setupCalls (env : Env) : List Event :=
  [Event.CoInitializeEx none COINIT_APARTMENTTHREADED,
   Event.DartProject "data",
   Event.GetCommandLineArguments,
   Event.set_dart_entrypoint_arguments env.GetCommandLineArguments,
   Event.GetSystemMetrics SM_CXSCREEN,
   Event.GetSystemMetrics SM_CYSCREEN,
   Event.FlutterWindow ⟨"data", env.GetCommandLineArguments⟩,
   Event.Create "orderly" ⟨0, 0⟩
     ⟨env.GetSystemMetrics SM_CXSCREEN, wrapInt (env.GetSystemMetrics SM_CYSCREEN - 50)⟩]

/-- The calls between a successful `window.Create` and the message loop. -/
def windowCalls (env : Env) : List Event :=
  [Event.GetHandle,
   Event.GetWindowLong env.GetHandle GWL_STYLE,
   Event.SetWindowLong env.GetHandle GWL_STYLE (styleWithoutResize env.GetWindowLong),
   Event.SetQuitOnClose true]

/-! ## Vocabulary of the properties -/

/-- Recognises a call of `window.Create`. -/
def Event.isCreate : Event → Bool
  | Event.Create _ _ _ => true
  | _ => false

/-- Recognises a call made by the message loop itself. -/
def Event.isLoopCall : Event → Bool
  | Event.GetMessage _ _ => true
  | Event.TranslateMessage _ => true
  | Event.DispatchMessage _ => true
  | _ => false

/-- The trace of a run. -/
def trace (inst prev : HINSTANCE) (command_line : String) (show_command : Int)
    (env : Env) : List Event :=
  (wWinMain inst prev command_line show_command env).2

/-- The outcome of a run. -/
def outcome (inst prev : HINSTANCE) (command_line : String) (show_command : Int)
    (env : Env) : Outcome :=
  (wWinMain inst prev command_line show_command env).1

/-- Recognises a call of `SetWindowLong`. -/
def Event.isSetWindowLong : Event → Bool
  | Event.SetWindowLong _ _ _ => true
  | _ => false

/-- Recognises the calls of the message pump and the call that follows it:
`GetMessage`, `TranslateMessage`, `DispatchMessage` and `CoUninitialize`. -/
def Event.isPumpCall : Event → Bool
  | Event.GetMessage _ _ => true
  | Event.TranslateMessage _ => true
  | Event.DispatchMessage _ => true
  | Event.CoUninitialize => true
  | _ => false

/-- The step of the run a call belongs to, numbered in the order in which the
steps are stated: the console step (0), `CoInitializeEx` (1), the set-up of the
project and of the window object (2), `window.Create` (3), the style update
(4), `SetQuitOnClose` (5), the message loop (6), `CoUninitialize` (7). -/
def phase : Event → Nat
  | Event.AttachConsole _ => 0
  | Event.IsDebuggerPresent => 0
  | Event.CreateAndAttachConsole => 0
  | Event.CoInitializeEx _ _ => 1
  | Event.DartProject _ => 2
  | Event.GetCommandLineArguments => 2
  | Event.set_dart_entrypoint_arguments _ => 2
  | Event.GetSystemMetrics _ => 2
  | Event.FlutterWindow _ => 2
  | Event.Create _ _ _ => 3
  | Event.GetHandle => 4
  | Event.GetWindowLong _ _ => 4
  | Event.SetWindowLong _ _ _ => 4
  | Event.SetQuitOnClose _ => 5
  | Event.GetMessage _ _ => 6
  | Event.TranslateMessage _ => 6
  | Event.DispatchMessage _ => 6
  | Event.CoUninitialize => 7

/-- The calls of a trace that belong to step `k`, in order. -/
def callsOfPhase (k : Nat) (t : List Event) : List Event :=
  t.filter (fun e => phase e == k)

/-- Recognises a call of `CoInitializeEx`. -/
def Event.isCoInitializeEx : Event → Bool
  | Event.CoInitializeEx _ _ => true
  | _ => false

/-- Recognises a call of `set_dart_entrypoint_arguments`. -/
def Event.isSetArguments : Event → Bool
  | Event.set_dart_entrypoint_arguments _ => true
  | _ => false

/-- Recognises the construction of the `FlutterWindow`. -/
def Event.isFlutterWindow : Event → Bool
  | Event.FlutterWindow _ => true
  | _ => false

/-- An environment in which window creation fails and `GetSystemMetrics` fails
too (it reports 0); a parent console is attached. -/
def failEnv : Env where
  AttachConsole := 1
  IsDebuggerPresent := 1
  CoInitializeEx := 1
  GetCommandLineArguments := []
  GetSystemMetrics := fun _ => 0
  Create := false
  GetHandle := 0
  GetWindowLong := 0
  SetWindowLong := 0
  GetMessage := [(0, ⟨18, 0, 0⟩)]

/-! ## Lemmas on the closed forms -/

theorem messageLoop_eq (ms : List (Int × MSG)) (t : List Event) :
    messageLoop ms t = (loopLeft ms, t ++ loopCalls ms) := by
  induction ms generalizing t with
  | nil => simp [messageLoop, loopLeft, loopCalls]
  | cons p rest ih =>
    obtain ⟨r, msg⟩ := p
    by_cases hr : r = 0
    · simp [messageLoop, loopLeft, loopCalls, hr]
    · simp [messageLoop, loopLeft, loopCalls, hr, ih, handled]

theorem wWinMain_eq (inst prev : HINSTANCE) (command_line : String) (show_command : Int)
    (env : Env) :
    wWinMain inst prev command_line show_command env =
      if env.Create = true then
        if loopLeft env.GetMessage = true then
          (Outcome.returned EXIT_SUCCESS,
            consoleCalls env ++ setupCalls env ++ windowCalls env ++
              loopCalls env.GetMessage ++ [Event.CoUninitialize])
        else
          (Outcome.blocked,
            consoleCalls env ++ setupCalls env ++ windowCalls env ++ loopCalls env.GetMessage)
      else (Outcome.returned EXIT_FAILURE, consoleCalls env ++ setupCalls env) := by
  unfold wWinMain
  simp only [messageLoop_eq]
  by_cases ha : env.AttachConsole = 0 <;> by_cases hd : env.IsDebuggerPresent = 0 <;>
    by_cases hc : env.Create = true <;> by_cases hl : loopLeft env.GetMessage = true <;>
    simp [consoleCalls, setupCalls, windowCalls, ha, hd, hc, hl]

theorem loopCalls_append (pre rest : List (Int × MSG)) (hpre : ∀ p ∈ pre, p.1 ≠ 0) :
    loopCalls (pre ++ rest) = pre.flatMap handled ++ loopCalls rest := by
  induction pre with
  | nil => simp
  | cons p pre ih =>
    obtain ⟨r, msg⟩ := p
    have hr : r ≠ 0 := hpre (r, msg) (by simp)
    have ih2 := ih (fun q hq => hpre q (by simp [hq]))
    simp [loopCalls, hr, ih2]

theorem loopLeft_append (pre rest : List (Int × MSG)) (hpre : ∀ p ∈ pre, p.1 ≠ 0) :
    loopLeft (pre ++ rest) = loopLeft rest := by
  induction pre with
  | nil => simp
  | cons p pre ih =>
    obtain ⟨r, msg⟩ := p
    have hr : r ≠ 0 := hpre (r, msg) (by simp)
    have ih2 := ih (fun q hq => hpre q (by simp [hq]))
    simp [loopLeft, hr, ih2]

theorem loopLeft_iff (ms : List (Int × MSG)) :
    loopLeft ms = true ↔ ∃ p ∈ ms, p.1 = 0 := by
  induction ms with
  | nil => simp [loopLeft]
  | cons p rest ih =>
    obtain ⟨r, msg⟩ := p
    by_cases hr : r = 0
    · simp [loopLeft, hr]
    · simp [loopLeft, hr, ih]

theorem isLoopCall_of_mem_loopCalls (ms : List (Int × MSG)) :
    ∀ e ∈ loopCalls ms, e.isLoopCall = true := by
  induction ms with
  | nil => simp [loopCalls]
  | cons p rest ih =>
    obtain ⟨r, msg⟩ := p
    intro e he
    by_cases hr : r = 0
    · simp [loopCalls, hr] at he
      subst he
      rfl
    · simp only [loopCalls, hr, ne_eq, not_false_eq_true, if_true, handled,
        List.mem_append, List.mem_cons, List.mem_singleton, List.not_mem_nil, or_false] at he
      rcases he with (h | h | h) | h
      · subst h; rfl
      · subst h; rfl
      · subst h; rfl
      · exact ih e h

theorem filter_loopCalls (q : Event → Bool) (hq : ∀ e, e.isLoopCall = true → q e = false)
    (ms : List (Int × MSG)) : (loopCalls ms).filter q = [] := by
  rw [List.filter_eq_nil_iff]
  intro e he
  simp [hq e (isLoopCall_of_mem_loopCalls ms e he)]

theorem outcome_eq (inst prev : HINSTANCE) (command_line : String) (show_command : Int)
    (env : Env) :
    outcome inst prev command_line show_command env =
      if env.Create = true then
        if loopLeft env.GetMessage = true then Outcome.returned EXIT_SUCCESS
        else Outcome.blocked
      else Outcome.returned EXIT_FAILURE := by
  unfold outcome
  rw [wWinMain_eq]
  by_cases hc : env.Create = true <;> by_cases hl : loopLeft env.GetMessage = true <;>
    simp [hc, hl]

theorem trace_eq (inst prev : HINSTANCE) (command_line : String) (show_command : Int)
    (env : Env) :
    trace inst prev command_line show_command env =
      consoleCalls env ++ setupCalls env ++
        (if env.Create = true then
          windowCalls env ++ loopCalls env.GetMessage ++
            (if loopLeft env.GetMessage = true then [Event.CoUninitialize] else [])
         else []) := by
  unfold trace
  rw [wWinMain_eq]
  by_cases hc : env.Create = true <;> by_cases hl : loopLeft env.GetMessage = true <;>
    simp [hc, hl]

theorem wrapInt_eq (x : Int) (hlo : INT_MIN ≤ x) (hhi : x ≤ INT_MAX) : wrapInt x = x := by
  unfold INT_MIN at hlo
  unfold INT_MAX at hhi
  unfold wrapInt
  omega

theorem nat_testBit_self_add (m n : Nat) : m.testBit (m + n) = false := by
  apply Nat.testBit_lt_two_pow
  calc m < 2 ^ m := Nat.lt_two_pow m
    _ ≤ 2 ^ (m + n) := Nat.pow_le_pow_right (by decide) (Nat.le_add_right m n)

/-- Two integers with the same two's-complement bits are equal. -/
theorem int_eq_of_testBit_eq (a b : Int) (h : ∀ i, a.testBit i = b.testBit i) : a = b := by
  cases a with
  | ofNat m =>
    cases b with
    | ofNat n =>
      congr 1
      apply Nat.eq_of_testBit_eq
      intro i
      simpa [Int.testBit] using h i
    | negSucc n =>
      exfalso
      have h1 := h (m + n)
      have h2 := nat_testBit_self_add m n
      have h3 := nat_testBit_self_add n m
      rw [Nat.add_comm] at h3
      simp [Int.testBit, h2, h3] at h1
  | negSucc m =>
    cases b with
    | ofNat n =>
      exfalso
      have h1 := h (m + n)
      have h2 := nat_testBit_self_add m n
      have h3 := nat_testBit_self_add n m
      rw [Nat.add_comm] at h3
      simp [Int.testBit, h2, h3] at h1
    | negSucc n =>
      congr 1
      apply Nat.eq_of_testBit_eq
      intro i
      simpa [Int.testBit] using h i

theorem testBit_WS_SIZEBOX (i : Nat) : WS_SIZEBOX.testBit i = decide (18 = i) := by
  have h : WS_SIZEBOX = ((2 ^ 18 : Nat) : Int) := by unfold WS_SIZEBOX; norm_num
  rw [h]
  show Nat.testBit (2 ^ 18) i = _
  exact Nat.testBit_two_pow

theorem testBit_WS_MAXIMIZEBOX (i : Nat) : WS_MAXIMIZEBOX.testBit i = decide (16 = i) := by
  have h : WS_MAXIMIZEBOX = ((2 ^ 16 : Nat) : Int) := by unfold WS_MAXIMIZEBOX; norm_num
  rw [h]
  show Nat.testBit (2 ^ 16) i = _
  exact Nat.testBit_two_pow

theorem testBit_styleWithoutResize (s : Int) (i : Nat) :
    (styleWithoutResize s).testBit i =
      (s.testBit i && !decide (18 = i) && !decide (16 = i)) := by
  unfold styleWithoutResize
  rw [Int.testBit_land, Int.testBit_land, Int.testBit_lnot, Int.testBit_lnot,
    testBit_WS_SIZEBOX, testBit_WS_MAXIMIZEBOX]

theorem styleWithoutResize_idem (s : Int) :
    styleWithoutResize (styleWithoutResize s) = styleWithoutResize s := by
  apply int_eq_of_testBit_eq
  intro i
  rw [testBit_styleWithoutResize, testBit_styleWithoutResize]
  cases s.testBit i <;> cases decide (18 = i) <;> cases decide (16 = i) <;> rfl

/-- The style 0x14CF0000 (an overlapped, visible window with all frame
controls) loses `WS_SIZEBOX` and `WS_MAXIMIZEBOX` and becomes 0x14CA0000. -/
theorem styleWithoutResize_overlapped :
    styleWithoutResize 0x14CF0000 = 0x14CA0000 := by
  norm_num [styleWithoutResize, WS_SIZEBOX, WS_MAXIMIZEBOX, Int.land, Int.lnot, Nat.ldiff,
    Nat.bitwise]

theorem filter_isSetWindowLong_trace (inst prev : HINSTANCE) (command_line : String)
    (show_command : Int) (env : Env) (hc : env.Create = true) :
    (trace inst prev command_line show_command env).filter Event.isSetWindowLong =
      [Event.SetWindowLong env.GetHandle GWL_STYLE (styleWithoutResize env.GetWindowLong)] := by
  rw [trace_eq]
  have hloop := filter_loopCalls Event.isSetWindowLong
    (by intro e he; cases e <;> simp_all [Event.isLoopCall, Event.isSetWindowLong])
    env.GetMessage
  by_cases ha : env.AttachConsole = 0 <;> by_cases hd : env.IsDebuggerPresent = 0 <;>
    by_cases hl : loopLeft env.GetMessage = true <;>
    simp [List.filter_append, hloop, consoleCalls, setupCalls, windowCalls, ha, hd, hc, hl,
      Event.isSetWindowLong]

theorem not_isPumpCall_before_loop (env : Env) :
    ∀ e ∈ consoleCalls env ++ setupCalls env ++ windowCalls env, e.isPumpCall = false := by
  intro e he
  by_cases ha : env.AttachConsole = 0 <;> by_cases hd : env.IsDebuggerPresent = 0 <;>
    simp [consoleCalls, setupCalls, windowCalls, ha, hd] at he <;>
    casesm* _ ∨ _ <;> subst_vars <;> rfl

theorem phase_of_mem_loopCalls (ms : List (Int × MSG)) :
    ∀ e ∈ loopCalls ms, phase e = 6 := by
  intro e he
  have h := isLoopCall_of_mem_loopCalls ms e he
  cases e <;> simp_all [Event.isLoopCall, phase]

theorem pairwise_phase_loopCalls (ms : List (Int × MSG)) :
    (loopCalls ms).Pairwise (fun a b => phase a ≤ phase b) := by
  apply List.pairwise_of_forall_mem_list
  intro a ha b hb
  rw [phase_of_mem_loopCalls ms a ha, phase_of_mem_loopCalls ms b hb]

theorem phase_of_mem_consoleCalls (env : Env) : ∀ e ∈ consoleCalls env, phase e = 0 := by
  intro e he
  by_cases ha : env.AttachConsole = 0 <;> by_cases hd : env.IsDebuggerPresent = 0 <;>
    simp [consoleCalls, ha, hd] at he <;> (try casesm* _ ∨ _) <;> subst_vars <;> rfl

theorem phase_of_mem_setupCalls (env : Env) :
    ∀ e ∈ setupCalls env, 1 ≤ phase e ∧ phase e ≤ 3 := by
  intro e he
  simp [setupCalls] at he
  casesm* _ ∨ _ <;> subst_vars <;> simp [phase]

theorem phase_of_mem_windowCalls (env : Env) :
    ∀ e ∈ windowCalls env, 4 ≤ phase e ∧ phase e ≤ 5 := by
  intro e he
  simp [windowCalls] at he
  casesm* _ ∨ _ <;> subst_vars <;> simp [phase]

theorem pairwise_phase_append (k : Nat) (l₁ l₂ : List Event)
    (h₁ : l₁.Pairwise (fun a b => phase a ≤ phase b))
    (h₂ : l₂.Pairwise (fun a b => phase a ≤ phase b))
    (hk₁ : ∀ e ∈ l₁, phase e ≤ k) (hk₂ : ∀ e ∈ l₂, k ≤ phase e) :
    (l₁ ++ l₂).Pairwise (fun a b => phase a ≤ phase b) := by
  rw [List.pairwise_append]
  exact ⟨h₁, h₂, fun a ha b hb => Nat.le_trans (hk₁ a ha) (hk₂ b hb)⟩

theorem pairwise_phase_before_Create (env : Env) :
    (consoleCalls env ++ setupCalls env).Pairwise (fun a b => phase a ≤ phase b) := by
  apply pairwise_phase_append 0
  · apply List.pairwise_of_forall_mem_list
    intro a ha b hb
    rw [phase_of_mem_consoleCalls env a ha, phase_of_mem_consoleCalls env b hb]
  · simp [setupCalls, phase]
  · intro e he
    rw [phase_of_mem_consoleCalls env e he]
  · intro e he
    exact Nat.zero_le _

theorem phase_before_Create_le (env : Env) :
    ∀ e ∈ consoleCalls env ++ setupCalls env, phase e ≤ 3 := by
  intro e he
  rcases List.mem_append.1 he with h | h
  · rw [phase_of_mem_consoleCalls env e h]
    decide
  · exact (phase_of_mem_setupCalls env e h).2

theorem pairwise_phase_after_Create (env : Env) :
    (windowCalls env ++ loopCalls env.GetMessage ++
      (if loopLeft env.GetMessage = true then [Event.CoUninitialize] else [])).Pairwise
      (fun a b => phase a ≤ phase b) := by
  apply pairwise_phase_append 6
  · apply pairwise_phase_append 5
    · simp [windowCalls, phase]
    · exact pairwise_phase_loopCalls _
    · intro e he
      exact (phase_of_mem_windowCalls env e he).2
    · intro e he
      rw [phase_of_mem_loopCalls _ e he]
      decide
  · by_cases hl : loopLeft env.GetMessage = true <;> simp [hl]
  · intro e he
    rcases List.mem_append.1 he with h | h
    · exact Nat.le_trans (phase_of_mem_windowCalls env e h).2 (by decide)
    · rw [phase_of_mem_loopCalls _ e h]
  · intro e he
    by_cases hl : loopLeft env.GetMessage = true <;> simp [hl] at he
    subst he
    decide

theorem phase_after_Create_ge (env : Env) :
    ∀ e ∈ windowCalls env ++ loopCalls env.GetMessage ++
      (if loopLeft env.GetMessage = true then [Event.CoUninitialize] else []),
      4 ≤ phase e := by
  intro e he
  rcases List.mem_append.1 he with h | h
  · rcases List.mem_append.1 h with h | h
    · exact (phase_of_mem_windowCalls env e h).1
    · rw [phase_of_mem_loopCalls _ e h]
      decide
  · by_cases hl : loopLeft env.GetMessage = true <;> simp [hl] at h
    subst h
    decide

theorem pairwise_phase_trace (inst prev : HINSTANCE) (command_line : String)
    (show_command : Int) (env : Env) :
    (trace inst prev command_line show_command env).Pairwise
      (fun a b => phase a ≤ phase b) := by
  rw [trace_eq]
  by_cases hc : env.Create = true
  · simp only [hc, if_true]
    apply pairwise_phase_append 3
    · exact pairwise_phase_before_Create env
    · exact pairwise_phase_after_Create env
    · exact phase_before_Create_le env
    · intro e he
      exact Nat.le_trans (by decide) (phase_after_Create_ge env e he)
  · have hc2 : env.Create = false := by simpa using hc
    simp only [hc2, Bool.false_eq_true, if_false, List.append_nil]
    exact pairwise_phase_before_Create env

theorem filter_trace (q : Event → Bool) (hq : ∀ e, e.isLoopCall = true → q e = false)
    (inst prev : HINSTANCE) (command_line : String) (show_command : Int) (env : Env) :
    (trace inst prev command_line show_command env).filter q =
      (consoleCalls env).filter q ++ (setupCalls env).filter q ++
        (if env.Create = true then
          (windowCalls env).filter q ++
            (if loopLeft env.GetMessage = true then [Event.CoUninitialize].filter q else [])
         else []) := by
  rw [trace_eq]
  have hloop := filter_loopCalls q hq env.GetMessage
  by_cases hc : env.Create = true <;> by_cases hl : loopLeft env.GetMessage = true <;>
    simp [List.filter_append, hloop, hc, hl]

theorem count_trace (e : Event) (he : e.isLoopCall = false)
    (inst prev : HINSTANCE) (command_line : String) (show_command : Int) (env : Env) :
    (trace inst prev command_line show_command env).count e =
      (consoleCalls env).count e + (setupCalls env).count e +
        (if env.Create = true then
          (windowCalls env).count e +
            (if loopLeft env.GetMessage = true then [Event.CoUninitialize].count e else 0)
         else 0) := by
  rw [trace_eq]
  have hloop : (loopCalls env.GetMessage).count e = 0 := by
    rw [List.count_eq_zero]
    intro hmem
    rw [isLoopCall_of_mem_loopCalls _ e hmem] at he
    exact Bool.noConfusion he
  by_cases hc : env.Create = true <;> by_cases hl : loopLeft env.GetMessage = true <;>
    simp [List.count_append, hloop, hc, hl, Nat.add_assoc]

theorem callsOfPhase_one_trace (inst prev : HINSTANCE) (command_line : String)
    (show_command : Int) (env : Env) :
    callsOfPhase 1 (trace inst prev command_line show_command env) =
      [Event.CoInitializeEx none COINIT_APARTMENTTHREADED] := by
  unfold callsOfPhase
  rw [filter_trace _ (by intro e he; cases e <;> simp_all [Event.isLoopCall, phase])]
  by_cases ha : env.AttachConsole = 0 <;> by_cases hd : env.IsDebuggerPresent = 0 <;>
    by_cases hc : env.Create = true <;> by_cases hl : loopLeft env.GetMessage = true <;>
    simp [consoleCalls, setupCalls, windowCalls, ha, hd, hc, hl, phase]

theorem callsOfPhase_three_trace (inst prev : HINSTANCE) (command_line : String)
    (show_command : Int) (env : Env) :
    callsOfPhase 3 (trace inst prev command_line show_command env) =
      [Event.Create "orderly" ⟨0, 0⟩
        ⟨env.GetSystemMetrics SM_CXSCREEN, wrapInt (env.GetSystemMetrics SM_CYSCREEN - 50)⟩] := by
  unfold callsOfPhase
  rw [filter_trace _ (by intro e he; cases e <;> simp_all [Event.isLoopCall, phase])]
  by_cases ha : env.AttachConsole = 0 <;> by_cases hd : env.IsDebuggerPresent = 0 <;>
    by_cases hc : env.Create = true <;> by_cases hl : loopLeft env.GetMessage = true <;>
    simp [consoleCalls, setupCalls, windowCalls, ha, hd, hc, hl, phase]

theorem callsOfPhase_four_trace (inst prev : HINSTANCE) (command_line : String)
    (show_command : Int) (env : Env) (hc : env.Create = true) :
    callsOfPhase 4 (trace inst prev command_line show_command env) =
      [Event.GetHandle, Event.GetWindowLong env.GetHandle GWL_STYLE,
       Event.SetWindowLong env.GetHandle GWL_STYLE (styleWithoutResize env.GetWindowLong)] := by
  unfold callsOfPhase
  rw [filter_trace _ (by intro e he; cases e <;> simp_all [Event.isLoopCall, phase])]
  by_cases ha : env.AttachConsole = 0 <;> by_cases hd : env.IsDebuggerPresent = 0 <;>
    by_cases hl : loopLeft env.GetMessage = true <;>
    simp [consoleCalls, setupCalls, windowCalls, ha, hd, hc, hl, phase]

theorem callsOfPhase_five_trace (inst prev : HINSTANCE) (command_line : String)
    (show_command : Int) (env : Env) (hc : env.Create = true) :
    callsOfPhase 5 (trace inst prev command_line show_command env) =
      [Event.SetQuitOnClose true] := by
  unfold callsOfPhase
  rw [filter_trace _ (by intro e he; cases e <;> simp_all [Event.isLoopCall, phase])]
  by_cases ha : env.AttachConsole = 0 <;> by_cases hd : env.IsDebuggerPresent = 0 <;>
    by_cases hl : loopLeft env.GetMessage = true <;>
    simp [consoleCalls, setupCalls, windowCalls, ha, hd, hc, hl, phase]

theorem head_trace (inst prev : HINSTANCE) (command_line : String)
    (show_command : Int) (env : Env) :
    (trace inst prev command_line show_command env).head? =
      some (Event.AttachConsole ATTACH_PARENT_PROCESS) := by
  rw [trace_eq]
  by_cases ha : env.AttachConsole = 0 <;> by_cases hd : env.IsDebuggerPresent = 0 <;>
    simp [consoleCalls, ha, hd]

theorem phase_trace_le_of_Create_false (inst prev : HINSTANCE) (command_line : String)
    (show_command : Int) (env : Env) (hc : env.Create = false) :
    ∀ e ∈ trace inst prev command_line show_command env, phase e ≤ 3 := by
  rw [trace_eq]
  simp only [hc, Bool.false_eq_true, if_false, List.append_nil]
  exact phase_before_Create_le env

/-! ## The claims -/

/-- C1: `wWinMain` returns `EXIT_FAILURE` exactly when `window.Create` returns
false; when `Create` returns true and the message loop ends (some `GetMessage`
result is zero) it returns `EXIT_SUCCESS`; a returned code is determined by the
result of `Create` alone, and replacing the results of `AttachConsole`,
`IsDebuggerPresent`, `CoInitializeEx`, `GetSystemMetrics` and `SetWindowLong`
by any other values leaves the outcome unchanged. -/
theorem return_value_decided_by_Create (inst prev : HINSTANCE) (command_line : String)
    (show_command : Int) (env : Env) :
    (outcome inst prev command_line show_command env = Outcome.returned EXIT_FAILURE ↔
      env.Create = false) ∧
    (env.Create = true → (∃ p ∈ env.GetMessage, p.1 = 0) →
      outcome inst prev command_line show_command env = Outcome.returned EXIT_SUCCESS) ∧
    (∀ code, outcome inst prev command_line show_command env = Outcome.returned code →
      code = if env.Create = true then EXIT_SUCCESS else EXIT_FAILURE) ∧
    (∀ (a d c : Int) (g : Int → Int) (s : Int),
      outcome inst prev command_line show_command
        { env with AttachConsole := a, IsDebuggerPresent := d, CoInitializeEx := c,
                   GetSystemMetrics := g, SetWindowLong := s } =
      outcome inst prev command_line show_command env) := by
  refine ⟨?_, ?_, ?_, ?_⟩
  · rw [outcome_eq]
    by_cases hc : env.Create = true <;> by_cases hl : loopLeft env.GetMessage = true <;>
      simp [hc, hl, EXIT_SUCCESS, EXIT_FAILURE]
  · intro hc hz
    rw [outcome_eq]
    simp [hc, (loopLeft_iff env.GetMessage).2 hz]
  · intro code
    rw [outcome_eq]
    by_cases hc : env.Create = true <;> by_cases hl : loopLeft env.GetMessage = true <;>
      simp [hc, hl] <;> intro h <;> exact h.symm
  · intro a d c g s
    rw [outcome_eq, outcome_eq]

theorem return_value_decided_by_Create_witness :
    sampleEnv.Create = true ∧ (∃ p ∈ sampleEnv.GetMessage, p.1 = 0) ∧
    outcome 0 0 "" 1 sampleEnv = Outcome.returned EXIT_SUCCESS :=
  ⟨rfl, ⟨(0, ⟨18, 0, 0⟩), by simp [sampleEnv], rfl⟩,
    (return_value_decided_by_Create 0 0 "" 1 sampleEnv).2.1 rfl
      ⟨(0, ⟨18, 0, 0⟩), by simp [sampleEnv], rfl⟩⟩

theorem filter_isCreate_trace (inst prev : HINSTANCE) (command_line : String)
    (show_command : Int) (env : Env) :
    (trace inst prev command_line show_command env).filter Event.isCreate =
      [Event.Create "orderly" ⟨0, 0⟩
        ⟨env.GetSystemMetrics SM_CXSCREEN, wrapInt (env.GetSystemMetrics SM_CYSCREEN - 50)⟩] := by
  rw [trace_eq]
  have hloop := filter_loopCalls Event.isCreate
    (by intro e he; cases e <;> simp_all [Event.isLoopCall, Event.isCreate]) env.GetMessage
  by_cases ha : env.AttachConsole = 0 <;> by_cases hd : env.IsDebuggerPresent = 0 <;>
    by_cases hc : env.Create = true <;> by_cases hl : loopLeft env.GetMessage = true <;>
    simp [List.filter_append, hloop, consoleCalls, setupCalls, windowCalls, ha, hd, hc, hl,
      Event.isCreate]

/-- C2 (evaluation of the code): on a 1920 by 1080 screen the one call of
`window.Create` is given the size 1920 by 1030, not the full screen size
1920 by 1080. -/
theorem Create_size_on_1920x1080 :
    sampleEnv.GetSystemMetrics SM_CXSCREEN = 1920 ∧
    sampleEnv.GetSystemMetrics SM_CYSCREEN = 1080 ∧
    (trace 0 0 "" 1 sampleEnv).filter Event.isCreate =
      [Event.Create "orderly" ⟨0, 0⟩ ⟨1920, 1030⟩] ∧
    Event.Create "orderly" ⟨0, 0⟩ ⟨1920, 1080⟩ ∉ trace 0 0 "" 1 sampleEnv := by
  refine ⟨by decide, by decide, by decide, by decide⟩

/-- C3: for every screen width `w` and every screen height `h` reported by
`GetSystemMetrics` (an `int` from which 50 can be subtracted without overflow),
`window.Create` is called exactly once, with title "orderly", origin (0, 0),
width `w` unchanged and height `h - 50`. -/
theorem Create_called_once_with_height_minus_50 (inst prev : HINSTANCE)
    (command_line : String) (show_command : Int) (env : Env) (w h : Int)
    (hw : env.GetSystemMetrics SM_CXSCREEN = w) (hh : env.GetSystemMetrics SM_CYSCREEN = h)
    (hlo : INT_MIN + 50 ≤ h) (hhi : h ≤ INT_MAX) :
    (trace inst prev command_line show_command env).filter Event.isCreate =
      [Event.Create "orderly" ⟨0, 0⟩ ⟨w, h - 50⟩] := by
  have hwrap : wrapInt (h - 50) = h - 50 := by
    apply wrapInt_eq
    · omega
    · unfold INT_MAX at hhi ⊢
      omega
  rw [filter_isCreate_trace, hw, hh, hwrap]

theorem Create_called_once_with_height_minus_50_witness :
    (trace 0 0 "" 1 sampleEnv).filter Event.isCreate =
      [Event.Create "orderly" ⟨0, 0⟩ ⟨1920, 1080 - 50⟩] :=
  Create_called_once_with_height_minus_50 0 0 "" 1 sampleEnv 1920 1080 (by decide) (by decide)
    (by decide) (by decide)

/-- C10: for a reported screen height `h` (an `int` from which 50 can be
subtracted without overflow) the height handed to `Size` is `h - 50`, which is
non-negative exactly when `h` is at least 50; no check is made, so when `h` is
below 50 the one call of `window.Create` is still made and its `Size` carries a
negative height. -/
theorem requested_height_sign (inst prev : HINSTANCE) (command_line : String)
    (show_command : Int) (env : Env) (h : Int) (hh : env.GetSystemMetrics SM_CYSCREEN = h)
    (hlo : INT_MIN + 50 ≤ h) (hhi : h ≤ INT_MAX) :
    ∃ size : Size,
      (trace inst prev command_line show_command env).filter Event.isCreate =
        [Event.Create "orderly" ⟨0, 0⟩ size] ∧
      size.height = h - 50 ∧
      (0 ≤ size.height ↔ 50 ≤ h) ∧
      (h < 50 → size.height < 0) := by
  have hwrap : wrapInt (h - 50) = h - 50 := by
    apply wrapInt_eq
    · omega
    · unfold INT_MAX at hhi ⊢
      omega
  refine ⟨⟨env.GetSystemMetrics SM_CXSCREEN, wrapInt (h - 50)⟩, ?_, hwrap, ?_, ?_⟩
  · rw [filter_isCreate_trace, hh]
  · simp only [hwrap]
    omega
  · intro hlt
    simp only [hwrap]
    omega

theorem requested_height_sign_witness :
    ∃ size : Size,
      (trace 0 0 "" 1 failEnv).filter Event.isCreate = [Event.Create "orderly" ⟨0, 0⟩ size] ∧
      size.height = 0 - 50 ∧
      (0 ≤ size.height ↔ (50 : Int) ≤ 0) ∧
      ((0 : Int) < 50 → size.height < 0) :=
  requested_height_sign 0 0 "" 1 failEnv 0 rfl (by decide) (by decide)

/-- C4: in a run where `window.Create` succeeds, `SetWindowLong` is called
once, on the window handle and `GWL_STYLE`, and for every style `s` returned by
`GetWindowLong` the value written has bit 18 (`WS_SIZEBOX`, 0x00040000) and
bit 16 (`WS_MAXIMIZEBOX`, 0x00010000) cleared and every other bit equal to the
corresponding bit of `s`; applying the same mask to the written value again
leaves it unchanged. -/
theorem style_update_clears_two_bits (inst prev : HINSTANCE) (command_line : String)
    (show_command : Int) (env : Env) (s : Int) (hc : env.Create = true)
    (hs : env.GetWindowLong = s) :
    ∃ v : Int,
      (trace inst prev command_line show_command env).filter Event.isSetWindowLong =
        [Event.SetWindowLong env.GetHandle GWL_STYLE v] ∧
      v.testBit 18 = false ∧ v.testBit 16 = false ∧
      (∀ i : Nat, i ≠ 18 → i ≠ 16 → v.testBit i = s.testBit i) ∧
      Int.land (Int.land v (Int.lnot WS_SIZEBOX)) (Int.lnot WS_MAXIMIZEBOX) = v := by
  refine ⟨styleWithoutResize s, ?_, ?_, ?_, ?_, ?_⟩
  · rw [filter_isSetWindowLong_trace _ _ _ _ _ hc, hs]
  · rw [testBit_styleWithoutResize]; simp
  · rw [testBit_styleWithoutResize]; simp
  · intro i h18 h16
    rw [testBit_styleWithoutResize]
    have e18 : decide (18 = i) = false := by simpa using fun h => h18 h.symm
    have e16 : decide (16 = i) = false := by simpa using fun h => h16 h.symm
    simp [e18, e16]
  · exact styleWithoutResize_idem s

theorem style_update_clears_two_bits_witness :
    ∃ v : Int,
      (trace 0 0 "" 1 sampleEnv).filter Event.isSetWindowLong =
        [Event.SetWindowLong sampleEnv.GetHandle GWL_STYLE v] ∧
      v.testBit 18 = false ∧ v.testBit 16 = false ∧
      (∀ i : Nat, i ≠ 18 → i ≠ 16 → v.testBit i = (0x14CF0000 : Int).testBit i) ∧
      Int.land (Int.land v (Int.lnot WS_SIZEBOX)) (Int.lnot WS_MAXIMIZEBOX) = v :=
  style_update_clears_two_bits 0 0 "" 1 sampleEnv 0x14CF0000 rfl rfl

/-- C5: in a run where `window.Create` succeeds, if the results delivered by
`GetMessage` are non-zero results `pre` (the error result -1 included) followed
by a first zero result, the calls made from the first retrieval on are, for
each message of `pre` in retrieval order, `GetMessage`, `TranslateMessage` and
`DispatchMessage` on it, then the `GetMessage` that returns zero, then
`CoUninitialize`, and nothing more, and `wWinMain` returns `EXIT_SUCCESS`;
the results after the first zero are never retrieved. If no delivered result is
zero every message is handled in the same way and the run stays blocked in
`GetMessage`. -/
theorem message_loop_until_first_zero (inst prev : HINSTANCE) (command_line : String)
    (show_command : Int) (env : Env) (hc : env.Create = true) :
    (∀ (pre : List (Int × MSG)) (m : MSG) (post : List (Int × MSG)),
      env.GetMessage = pre ++ (0, m) :: post → (∀ p ∈ pre, p.1 ≠ 0) →
      outcome inst prev command_line show_command env = Outcome.returned EXIT_SUCCESS ∧
      ∃ before : List Event, (∀ e ∈ before, e.isPumpCall = false) ∧
        trace inst prev command_line show_command env =
          before ++ pre.flatMap handled ++ [Event.GetMessage 0 m, Event.CoUninitialize]) ∧
    ((∀ p ∈ env.GetMessage, p.1 ≠ 0) →
      outcome inst prev command_line show_command env = Outcome.blocked ∧
      ∃ before : List Event, (∀ e ∈ before, e.isPumpCall = false) ∧
        trace inst prev command_line show_command env =
          before ++ env.GetMessage.flatMap handled) := by
  constructor
  · intro pre m post hms hpre
    have hl : loopLeft env.GetMessage = true := by
      rw [hms, loopLeft_append pre _ hpre]
      simp [loopLeft]
    have hcalls : loopCalls env.GetMessage = pre.flatMap handled ++ [Event.GetMessage 0 m] := by
      rw [hms, loopCalls_append pre _ hpre]
      simp [loopCalls]
    refine ⟨by rw [outcome_eq]; simp [hc, hl], ?_⟩
    refine ⟨consoleCalls env ++ setupCalls env ++ windowCalls env,
      not_isPumpCall_before_loop env, ?_⟩
    rw [trace_eq, hcalls]
    simp [hc, hl]
  · intro hall
    have hl : loopLeft env.GetMessage = false := by
      have h := loopLeft_append env.GetMessage [] hall
      simpa [loopLeft] using h
    have hcalls : loopCalls env.GetMessage = env.GetMessage.flatMap handled := by
      have h := loopCalls_append env.GetMessage [] hall
      simpa [loopCalls] using h
    refine ⟨by rw [outcome_eq]; simp [hc, hl], ?_⟩
    refine ⟨consoleCalls env ++ setupCalls env ++ windowCalls env,
      not_isPumpCall_before_loop env, ?_⟩
    rw [trace_eq, hcalls]
    simp [hc, hl]

theorem message_loop_until_first_zero_witness :
    outcome 0 0 "" 1 sampleEnv = Outcome.returned EXIT_SUCCESS ∧
    ∃ before : List Event, (∀ e ∈ before, e.isPumpCall = false) ∧
      trace 0 0 "" 1 sampleEnv =
        before ++
          [Event.GetMessage 1 ⟨15, 0, 0⟩, Event.TranslateMessage ⟨15, 0, 0⟩,
           Event.DispatchMessage ⟨15, 0, 0⟩,
           Event.GetMessage (-1) ⟨15, 0, 0⟩, Event.TranslateMessage ⟨15, 0, 0⟩,
           Event.DispatchMessage ⟨15, 0, 0⟩] ++
          [Event.GetMessage 0 ⟨18, 0, 0⟩, Event.CoUninitialize] :=
  (message_loop_until_first_zero 0 0 "" 1 sampleEnv rfl).1
    [(1, ⟨15, 0, 0⟩), (-1, ⟨15, 0, 0⟩)] ⟨18, 0, 0⟩ [(1, ⟨15, 0, 0⟩)] rfl (by decide)

/-- C6: in every run the calls are made in the stated order of steps (the
console step, `CoInitializeEx`, the set-up of the project and window object,
`window.Create`, the style update, `SetQuitOnClose(true)`, the message loop,
`CoUninitialize`): no call of a later step precedes a call of an earlier one.
The run starts with `AttachConsole`, calls `CoInitializeEx` once and
`window.Create` once, and every call of `window.Create` is preceded by the call
of `CoInitializeEx`. When `Create` returns true the style update and
`SetQuitOnClose(true)` are made; when it returns false no call of a step after
`window.Create` is made (no style update, no `SetQuitOnClose`, no message
retrieval). -/
theorem calls_in_stated_order (inst prev : HINSTANCE) (command_line : String)
    (show_command : Int) (env : Env) :
    (trace inst prev command_line show_command env).Pairwise
      (fun a b => phase a ≤ phase b) ∧
    (trace inst prev command_line show_command env).head? =
      some (Event.AttachConsole ATTACH_PARENT_PROCESS) ∧
    callsOfPhase 1 (trace inst prev command_line show_command env) =
      [Event.CoInitializeEx none COINIT_APARTMENTTHREADED] ∧
    (∃ size, callsOfPhase 3 (trace inst prev command_line show_command env) =
      [Event.Create "orderly" ⟨0, 0⟩ size]) ∧
    (∀ (pre : List Event) (e : Event) (post : List Event),
      trace inst prev command_line show_command env = pre ++ e :: post →
      e.isCreate = true → Event.CoInitializeEx none COINIT_APARTMENTTHREADED ∈ pre) ∧
    (env.Create = true →
      (∃ v, callsOfPhase 4 (trace inst prev command_line show_command env) =
        [Event.GetHandle, Event.GetWindowLong env.GetHandle GWL_STYLE,
         Event.SetWindowLong env.GetHandle GWL_STYLE v]) ∧
      callsOfPhase 5 (trace inst prev command_line show_command env) =
        [Event.SetQuitOnClose true]) ∧
    (env.Create = false →
      ∀ e ∈ trace inst prev command_line show_command env, phase e ≤ 3) := by
  have hpw := pairwise_phase_trace inst prev command_line show_command env
  have h1 := callsOfPhase_one_trace inst prev command_line show_command env
  refine ⟨hpw, head_trace _ _ _ _ _, h1, ⟨_, callsOfPhase_three_trace _ _ _ _ _⟩, ?_, ?_,
    phase_trace_le_of_Create_false _ _ _ _ _⟩
  · intro pre e post hsplit hcreate
    have he3 : phase e = 3 := by
      cases e <;> simp_all [Event.isCreate, phase]
    have hmem : Event.CoInitializeEx none COINIT_APARTMENTTHREADED ∈
        trace inst prev command_line show_command env := by
      have : Event.CoInitializeEx none COINIT_APARTMENTTHREADED ∈
          callsOfPhase 1 (trace inst prev command_line show_command env) := by
        rw [h1]
        exact List.mem_singleton.2 rfl
      exact (List.mem_filter.1 this).1
    rw [hsplit] at hmem hpw
    rcases List.mem_append.1 hmem with h | h
    · exact h
    · exfalso
      rcases List.mem_cons.1 h with h | h
      · rw [← h] at he3
        exact absurd he3 (by decide)
      · have hle := (List.pairwise_cons.1 (List.pairwise_append.1 hpw).2.1).1 _ h
        rw [he3] at hle
        exact absurd hle (by decide)
  · intro hc
    exact ⟨⟨_, callsOfPhase_four_trace _ _ _ _ _ hc⟩, callsOfPhase_five_trace _ _ _ _ _ hc⟩

theorem calls_in_stated_order_witness :
    sampleEnv.Create = true ∧
    callsOfPhase 5 (trace 0 0 "" 1 sampleEnv) = [Event.SetQuitOnClose true] ∧
    failEnv.Create = false ∧
    (trace 0 0 "" 1 failEnv).all (fun e => decide (phase e ≤ 3)) = true :=
  ⟨rfl, ((calls_in_stated_order 0 0 "" 1 sampleEnv).2.2.2.2.2.1 rfl).2, rfl,
    List.all_eq_true.2 (fun e he =>
      decide_eq_true ((calls_in_stated_order 0 0 "" 1 failEnv).2.2.2.2.2.2 rfl e he))⟩

theorem count_CreateAndAttachConsole (inst prev : HINSTANCE) (command_line : String)
    (show_command : Int) (env : Env) :
    (trace inst prev command_line show_command env).count Event.CreateAndAttachConsole =
      if env.AttachConsole = 0 ∧ env.IsDebuggerPresent ≠ 0 then 1 else 0 := by
  rw [count_trace Event.CreateAndAttachConsole rfl]
  by_cases ha : env.AttachConsole = 0 <;> by_cases hd : env.IsDebuggerPresent = 0 <;>
    by_cases hc : env.Create = true <;> by_cases hl : loopLeft env.GetMessage = true <;>
    simp [consoleCalls, setupCalls, windowCalls, ha, hd, hc, hl]

theorem count_IsDebuggerPresent (inst prev : HINSTANCE) (command_line : String)
    (show_command : Int) (env : Env) :
    (trace inst prev command_line show_command env).count Event.IsDebuggerPresent =
      if env.AttachConsole = 0 then 1 else 0 := by
  rw [count_trace Event.IsDebuggerPresent rfl]
  by_cases ha : env.AttachConsole = 0 <;> by_cases hd : env.IsDebuggerPresent = 0 <;>
    by_cases hc : env.Create = true <;> by_cases hl : loopLeft env.GetMessage = true <;>
    simp [consoleCalls, setupCalls, windowCalls, ha, hd, hc, hl]

theorem count_CoUninitialize (inst prev : HINSTANCE) (command_line : String)
    (show_command : Int) (env : Env) :
    (trace inst prev command_line show_command env).count Event.CoUninitialize =
      if env.Create = true ∧ loopLeft env.GetMessage = true then 1 else 0 := by
  rw [count_trace Event.CoUninitialize rfl]
  by_cases ha : env.AttachConsole = 0 <;> by_cases hd : env.IsDebuggerPresent = 0 <;>
    by_cases hc : env.Create = true <;> by_cases hl : loopLeft env.GetMessage = true <;>
    simp [consoleCalls, setupCalls, windowCalls, ha, hd, hc, hl]

/-- C7: the run starts with `AttachConsole(ATTACH_PARENT_PROCESS)`, and
`CreateAndAttachConsole` is called (once) if and only if that call fails
(returns 0) and `IsDebuggerPresent()` is true (returns non-zero).
`IsDebuggerPresent` is queried (once) exactly when `AttachConsole` fails: when
`AttachConsole` succeeds it is not queried and no console is created, and when
`AttachConsole` fails with no debugger present no console is created. -/
theorem console_created_iff (inst prev : HINSTANCE) (command_line : String)
    (show_command : Int) (env : Env) :
    (trace inst prev command_line show_command env).head? =
      some (Event.AttachConsole ATTACH_PARENT_PROCESS) ∧
    (Event.CreateAndAttachConsole ∈ trace inst prev command_line show_command env ↔
      env.AttachConsole = 0 ∧ env.IsDebuggerPresent ≠ 0) ∧
    (trace inst prev command_line show_command env).count Event.CreateAndAttachConsole ≤ 1 ∧
    (env.AttachConsole ≠ 0 →
      Event.IsDebuggerPresent ∉ trace inst prev command_line show_command env ∧
      Event.CreateAndAttachConsole ∉ trace inst prev command_line show_command env) ∧
    (env.AttachConsole = 0 →
      (trace inst prev command_line show_command env).count Event.IsDebuggerPresent = 1) ∧
    (env.AttachConsole = 0 → env.IsDebuggerPresent = 0 →
      Event.CreateAndAttachConsole ∉ trace inst prev command_line show_command env) := by
  have hcc := count_CreateAndAttachConsole inst prev command_line show_command env
  have hcd := count_IsDebuggerPresent inst prev command_line show_command env
  refine ⟨head_trace _ _ _ _ _, ?_, ?_, ?_, ?_, ?_⟩
  · rw [← List.count_pos_iff, hcc]
    by_cases h : env.AttachConsole = 0 ∧ env.IsDebuggerPresent ≠ 0 <;> simp [h]
  · rw [hcc]
    by_cases h : env.AttachConsole = 0 ∧ env.IsDebuggerPresent ≠ 0 <;> simp [h]
  · intro ha
    constructor
    · rw [← List.count_eq_zero, hcd]
      simp [ha]
    · rw [← List.count_eq_zero, hcc]
      simp [ha]
  · intro ha
    rw [hcd]
    simp [ha]
  · intro ha hd
    rw [← List.count_eq_zero, hcc]
    simp [hd]

theorem console_created_iff_witness :
    failEnv.AttachConsole ≠ 0 ∧
    Event.IsDebuggerPresent ∉ trace 0 0 "" 1 failEnv ∧
    Event.CreateAndAttachConsole ∉ trace 0 0 "" 1 failEnv :=
  ⟨by decide, (console_created_iff 0 0 "" 1 failEnv).2.2.2.1 (by decide)⟩

/-- C8: the launcher parses no flags. `set_dart_entrypoint_arguments` is called
once, with exactly the list returned by `GetCommandLineArguments()` (same
elements, same order), and the project handed to the window carries that list;
and for any two choices of the four parameters `instance`, `prev`,
`command_line` and `show_command` the calls made and the outcome are the
same. -/
theorem arguments_passed_through_unparsed (inst prev : HINSTANCE) (command_line : String)
    (show_command : Int) (env : Env) :
    (trace inst prev command_line show_command env).filter Event.isSetArguments =
      [Event.set_dart_entrypoint_arguments env.GetCommandLineArguments] ∧
    (trace inst prev command_line show_command env).filter Event.isFlutterWindow =
      [Event.FlutterWindow ⟨"data", env.GetCommandLineArguments⟩] ∧
    (∀ (inst2 prev2 : HINSTANCE) (command_line2 : String) (show_command2 : Int),
      trace inst2 prev2 command_line2 show_command2 env =
        trace inst prev command_line show_command env ∧
      outcome inst2 prev2 command_line2 show_command2 env =
        outcome inst prev command_line show_command env) := by
  refine ⟨?_, ?_, ?_⟩
  · rw [filter_trace _
      (by intro e he; cases e <;> simp_all [Event.isLoopCall, Event.isSetArguments])]
    by_cases ha : env.AttachConsole = 0 <;> by_cases hd : env.IsDebuggerPresent = 0 <;>
      by_cases hc : env.Create = true <;> by_cases hl : loopLeft env.GetMessage = true <;>
      simp [consoleCalls, setupCalls, windowCalls, ha, hd, hc, hl, Event.isSetArguments]
  · rw [filter_trace _
      (by intro e he; cases e <;> simp_all [Event.isLoopCall, Event.isFlutterWindow])]
    by_cases ha : env.AttachConsole = 0 <;> by_cases hd : env.IsDebuggerPresent = 0 <;>
      by_cases hc : env.Create = true <;> by_cases hl : loopLeft env.GetMessage = true <;>
      simp [consoleCalls, setupCalls, windowCalls, ha, hd, hc, hl, Event.isFlutterWindow]
  · intro inst2 prev2 command_line2 show_command2
    exact ⟨rfl, rfl⟩

/-- C9: `CoInitializeEx(nullptr, COINIT_APARTMENTTHREADED)` is called exactly
once in every run. `CoUninitialize` is called exactly once in the runs that
return `EXIT_SUCCESS` and not at all in any other run; in particular, when
`window.Create` returns false the function returns `EXIT_FAILURE` without
calling `CoUninitialize`. -/
theorem CoUninitialize_only_on_success (inst prev : HINSTANCE) (command_line : String)
    (show_command : Int) (env : Env) :
    (trace inst prev command_line show_command env).filter Event.isCoInitializeEx =
      [Event.CoInitializeEx none COINIT_APARTMENTTHREADED] ∧
    (outcome inst prev command_line show_command env = Outcome.returned EXIT_SUCCESS →
      (trace inst prev command_line show_command env).count Event.CoUninitialize = 1) ∧
    (outcome inst prev command_line show_command env ≠ Outcome.returned EXIT_SUCCESS →
      (trace inst prev command_line show_command env).count Event.CoUninitialize = 0) ∧
    (env.Create = false →
      outcome inst prev command_line show_command env = Outcome.returned EXIT_FAILURE ∧
      (trace inst prev command_line show_command env).count Event.CoUninitialize = 0) := by
  refine ⟨?_, ?_, ?_, ?_⟩
  · rw [filter_trace _
      (by intro e he; cases e <;> simp_all [Event.isLoopCall, Event.isCoInitializeEx])]
    by_cases ha : env.AttachConsole = 0 <;> by_cases hd : env.IsDebuggerPresent = 0 <;>
      by_cases hc : env.Create = true <;> by_cases hl : loopLeft env.GetMessage = true <;>
      simp [consoleCalls, setupCalls, windowCalls, ha, hd, hc, hl, Event.isCoInitializeEx]
  · rw [outcome_eq, count_CoUninitialize]
    by_cases hc : env.Create = true <;> by_cases hl : loopLeft env.GetMessage = true <;>
      simp [hc, hl, EXIT_SUCCESS, EXIT_FAILURE]
  · rw [outcome_eq, count_CoUninitialize]
    by_cases hc : env.Create = true <;> by_cases hl : loopLeft env.GetMessage = true <;>
      simp [hc, hl, EXIT_SUCCESS, EXIT_FAILURE]
  · intro hc
    rw [outcome_eq, count_CoUninitialize]
    simp [hc]

theorem CoUninitialize_only_on_success_witness :
    failEnv.Create = false ∧
    outcome 0 0 "" 1 failEnv = Outcome.returned EXIT_FAILURE ∧
    (trace 0 0 "" 1 failEnv).count Event.CoUninitialize = 0 :=
  ⟨rfl, (CoUninitialize_only_on_success 0 0 "" 1 failEnv).2.2.2 rfl⟩

end Orderly
